import Mathlib

/-!
# Verification of `src/logging_webhook_adapter.py`

A shallow embedding of the logging webhook adapter.  Python values that can
reach the formatter are modelled by the mutual inductive `PyVal` below:
mappings (`pdict`, with string keys — the only key shape the repository ever
produces), ordered sequences (`plist`), the scalar types the adapter touches
(`pstr`, `pint`, `pbool`, `pnone`) and opaque objects (`pobj`), whose
`__str__` / `__repr__` conversions are modelled as optional strings — `none`
models a conversion that raises.  A Python function that may raise is
embedded as a function into `Option` (`none` = an exception escaped), or,
for the hooks that also emit output, as a function returning the emitted
event trace together with a `Bool` success flag (`false` = an exception
escaped after the trace's events were emitted).

Output is modelled by `Ev`: `Ev.pr t f` is a console write of text `t` with
flush flag `f` (the code always passes `flush=True` and then flushes
`sys.stdout` again), and `Ev.lg lvl t` is a record handed to the `logging`
channel at severity `lvl`.
-/

mutual

/-- A Python value as it can reach `_format_payload`.  Opaque objects carry
their `str` and `repr` conversions as `Option String`; `none` models a
conversion that raises. -/
inductive PyVal : Type where
  | pstr (s : String)
  | pint (n : Int)
  | pbool (b : Bool)
  | pnone
  | plist (xs : PyList)
  | pdict (kvs : PyDict)
  | pobj (strRes : Option String) (reprRes : Option String) (typeName : String)
deriving DecidableEq

/-- A Python list of values (spine made explicit so that all recursion over
`PyVal` is structural). -/
inductive PyList : Type where
  | nil
  | cons (v : PyVal) (t : PyList)
deriving DecidableEq

/-- A Python dict with string keys, in insertion order. -/
inductive PyDict : Type where
  | nil
  | cons (k : String) (v : PyVal) (t : PyDict)
deriving DecidableEq

end

def PyList.toList : PyList → List PyVal
  | .nil => []
  | .cons v t => v :: t.toList

def PyDict.toItems : PyDict → List (String × PyVal)
  | .nil => []
  | .cons k v t => (k, v) :: t.toItems

def PyDict.isEmptyD : PyDict → Bool
  | .nil => true
  | .cons _ _ _ => false

def PyList.isEmptyL : PyList → Bool
  | .nil => true
  | .cons _ _ => false

/-- `n` spaces. -/
def sp (n : Nat) : String := String.mk (List.replicate n ' ')

def hexDigit (n : Nat) : Char :=
  if n < 10 then Char.ofNat (48 + n) else Char.ofNat (87 + (n % 16))

def hex4 (n : Nat) : String :=
  String.mk [hexDigit (n / 4096 % 16), hexDigit (n / 256 % 16),
             hexDigit (n / 16 % 16), hexDigit (n % 16)]

/-- JSON escaping of one character, as `json.dumps` does with its default
`ensure_ascii=True` (characters above `0x7e` become `\uXXXX` escapes,
non-BMP characters become surrogate pairs). -/
def jsonEscapeChar (c : Char) : String :=
  if c = '"' then "\\\""
  else if c = '\\' then "\\\\"
  else if c = '\n' then "\\n"
  else if c = '\r' then "\\r"
  else if c = '\t' then "\\t"
  else if c.val.toNat = 8 then "\\b"
  else if c.val.toNat = 12 then "\\f"
  else if c.val.toNat < 32 then "\\u" ++ hex4 c.val.toNat
  else if c.val.toNat < 127 then String.mk [c]
  else if c.val.toNat < 65536 then "\\u" ++ hex4 c.val.toNat
  else
    let v := c.val.toNat - 65536
    "\\u" ++ hex4 (55296 + v / 1024) ++ "\\u" ++ hex4 (56320 + v % 1024)

/-- A JSON string literal for `s`, as `json.dumps` produces. -/
def jsonQuote (s : String) : String :=
  "\"" ++ String.join (s.data.map jsonEscapeChar) ++ "\""

mutual

/-- Embedding of `json.dumps(v, indent=ind, default=str)` at nesting level
`lvl`.  `none` models the call raising: with `default=str`, serialization of
a structure over the values modelled here fails exactly when `str` of some
opaque leaf raises (the `default` hook re-raises that error). -/
def jsonDumpsV : PyVal → Nat → Nat → Option String
  | .pstr s, _, _ => some (jsonQuote s)
  | .pint n, _, _ => some (toString n)
  | .pbool b, _, _ => some (if b then "true" else "false")
  | .pnone, _, _ => some "null"
  | .pobj strRes _ _, _, _ => strRes.map jsonQuote
  | .plist xs, ind, lvl =>
    match xs with
    | .nil => some "[]"
    | .cons v t =>
      (jsonDumpsL (.cons v t) ind (lvl + 1)).map (fun items =>
        "[\n" ++ String.intercalate ",\n" items ++ "\n" ++ sp (ind * lvl) ++ "]")
  | .pdict kvs, ind, lvl =>
    match kvs with
    | .nil => some "\x7b\x7d"
    | .cons k v t =>
      (jsonDumpsD (.cons k v t) ind (lvl + 1)).map (fun items =>
        "\x7b\n" ++ String.intercalate ",\n" items ++ "\n" ++ sp (ind * lvl) ++ "\x7d")

/-- The serialized items of a list, each already carrying its indentation. -/
def jsonDumpsL : PyList → Nat → Nat → Option (List String)
  | .nil, _, _ => some []
  | .cons v t, ind, lvl =>
    match jsonDumpsV v ind lvl, jsonDumpsL t ind lvl with
    | some s, some rest => some ((sp (ind * lvl) ++ s) :: rest)
    | _, _ => none

/-- The serialized `"key": value` items of a dict. -/
def jsonDumpsD : PyDict → Nat → Nat → Option (List String)
  | .nil, _, _ => some []
  | .cons k v t, ind, lvl =>
    match jsonDumpsV v ind lvl, jsonDumpsD t ind lvl with
    | some s, some rest => some ((sp (ind * lvl) ++ jsonQuote k ++ ": " ++ s) :: rest)
    | _, _ => none

end

/-- Escaping of one character inside a Python `repr` string literal quoted
by `q` (printable characters above ASCII are kept as-is, as CPython does for
printable text). -/
def pyReprEscapeChar (q c : Char) : String :=
  if c = '\\' then "\\\\"
  else if c = q then "\\" ++ String.mk [q]
  else if c = '\n' then "\\n"
  else if c = '\r' then "\\r"
  else if c = '\t' then "\\t"
  else if c.val.toNat < 32 ∨ c.val.toNat = 127 then
    "\\x" ++ String.mk [hexDigit (c.val.toNat / 16 % 16), hexDigit (c.val.toNat % 16)]
  else String.mk [c]

/-- Embedding of `repr` on a Python `str`: single quotes unless the string
contains a single quote and no double quote. -/
def pyStrRepr (s : String) : String :=
  let q := if s.data.contains '\'' && !(s.data.contains '"') then '"' else '\''
  String.mk [q] ++ String.join (s.data.map (pyReprEscapeChar q)) ++ String.mk [q]

mutual

/-- Embedding of Python `repr`.  `none` models `repr` raising (possible only
through an opaque object's `__repr__`). -/
def pyReprV : PyVal → Option String
  | .pstr s => some (pyStrRepr s)
  | .pint n => some (toString n)
  | .pbool b => some (if b then "True" else "False")
  | .pnone => some "None"
  | .pobj _ reprRes _ => reprRes
  | .plist xs =>
    (pyReprL xs).map (fun items => "[" ++ String.intercalate ", " items ++ "]")
  | .pdict kvs =>
    (pyReprD kvs).map (fun items => "\x7b" ++ String.intercalate ", " items ++ "\x7d")

def pyReprL : PyList → Option (List String)
  | .nil => some []
  | .cons v t =>
    match pyReprV v, pyReprL t with
    | some s, some rest => some (s :: rest)
    | _, _ => none

def pyReprD : PyDict → Option (List String)
  | .nil => some []
  | .cons k v t =>
    match pyReprV v, pyReprD t with
    | some s, some rest => some ((pyStrRepr k ++ ": " ++ s) :: rest)
    | _, _ => none

end

/-- Embedding of Python `str`.  It differs from `repr` only on strings
(returned verbatim) and opaque objects (their `__str__`); on containers
`str` and `repr` agree, both using `repr` of the elements. -/
def pyStrV : PyVal → Option String
  | .pstr s => some s
  | .pobj strRes _ _ => strRes
  | v => pyReprV v

/-- `isinstance(data, (dict, list))`. -/
def isDictOrList : PyVal → Bool
  | .pdict _ => true
  | .plist _ => true
  | _ => false

/-- Embedding of `_format_payload` (lines 40–47): `json.dumps(data,
indent=indent, default=str)` for dicts and lists, `str(data)` otherwise,
inside `try: ... except Exception: return str(data)`.  The `except`
handler itself evaluates `str(data)`; if that conversion raises too, the
exception escapes `_format_payload`, which the embedding records as
`none`. -/
def _format_payload (data : PyVal) (indent : Nat) : Option String :=
  let attempt := if isDictOrList data then jsonDumpsV data indent 0 else pyStrV data
  match attempt with
  | some s => some s
  | none => pyStrV data

mutual

/-- Does every opaque leaf of the value have a non-raising `__str__`?  This
is exactly the condition under which `json.dumps(·, default=str)` succeeds
on the values modelled here. -/
def serOkV : PyVal → Bool
  | .pobj strRes _ _ => strRes.isSome
  | .plist xs => serOkL xs
  | .pdict kvs => serOkD kvs
  | _ => true

def serOkL : PyList → Bool
  | .nil => true
  | .cons v t => serOkV v && serOkL t

def serOkD : PyDict → Bool
  | .nil => true
  | .cons _ v t => serOkV v && serOkD t

end

example : _format_payload (.pstr "hi") 2 = some "hi" := by decide

example :
    _format_payload
      (.pdict (.cons "a" (.pint 1) (.cons "b"
        (.plist (.cons (.pint 1) (.cons (.pint 2) (.cons (.pint 3) .nil)))) .nil))) 2
      = some "\x7b\n  \"a\": 1,\n  \"b\": [\n    1,\n    2,\n    3\n  ]\n\x7d" := by
  decide

example : _format_payload (.pobj none none "Unprintable") 2 = none := by decide

example :
    _format_payload (.pdict (.cons "k" (.pobj none (some "<Evil>") "Evil") .nil)) 2
      = some "\x7b'k': <Evil>\x7d" := by decide

/-! ## Output events and the logging helper -/

/-- Severities the adapter uses on the logging channel. -/
inductive LogLevel : Type where
  | info
  | error
deriving DecidableEq

/-- One observable output event: `pr` is a console write (with its flush
flag), `lg` is a record handed to the leveled logging channel. -/
inductive Ev : Type where
  | pr (text : String) (flushed : Bool)
  | lg (lvl : LogLevel) (text : String)
deriving DecidableEq

/-- Embedding of `_log_and_print` (lines 33–37): `print(message, flush=True)`,
`sys.stdout.flush()`, then `getattr(log, level)(message)`.  The source's
default severity is `"info"`; call sites that rely on the default pass
`.info` here explicitly. -/
def _log_and_print (message : String) (level : LogLevel) : List Ev :=
  [.pr message true, .lg level message]

/-- The texts written to the console (sink #2), in order. -/
def consoleTexts (tr : List Ev) : List String :=
  tr.filterMap fun e => match e with | .pr t _ => some t | .lg _ _ => none

/-- The records handed to the logging channel (sink #1), in order. -/
def logRecords (tr : List Ev) : List (LogLevel × String) :=
  tr.filterMap fun e => match e with | .pr _ _ => none | .lg lvl t => some (lvl, t)

/-- The texts handed to the logging channel, in order. -/
def logTexts (tr : List Ev) : List String := (logRecords tr).map Prod.snd

/-- Was every console write flushed immediately? -/
def allFlushed (tr : List Ev) : Bool :=
  tr.all fun e => match e with | .pr _ f => f | .lg _ _ => true

/-! ## Module-level constants (lines 26–30) -/

def SEPARATOR_THICK : String := String.mk (List.replicate 80 '=')

def SEPARATOR_THIN : String := String.mk (List.replicate 80 '-')

def ARROW_IN : String := String.mk (List.replicate 80 '>')

def ARROW_OUT : String := String.mk (List.replicate 80 '<')

def BANNER_START : String :=
  "\n" ++ String.mk (List.replicate 80 '#') ++ "\n" ++ "#" ++ sp 30 ++
    "GATEWAY EVENT" ++ sp 35 ++ "#\n" ++ String.mk (List.replicate 80 '#')

/-! ## The framework types, restricted to the attributes the adapter reads -/

/-- The slice of the host's `GatewayContext` the adapter touches; `none`
models the `gateway_id` attribute being absent (the code reads it with
`getattr(context, 'gateway_id', 'unknown')`). -/
structure GatewayContext : Type where
  gateway_id : Option String
deriving DecidableEq

/-- The slice of the host's `ResponseContext` the adapter touches; `none`
models a missing attribute (all reads go through `getattr(·, ·, 'N/A')`). -/
structure ResponseContext : Type where
  session_id : Option String
  task_id : Option String
  user_id : Option String
deriving DecidableEq

/-- A content part of a task. -/
inductive ContentPart : Type where
  | text (s : String)
deriving DecidableEq

/-- Model of `solace_agent_mesh.common.a2a.create_text_part`: builds the
text content part the task carries. -/
def create_text_part (s : String) : ContentPart := ContentPart.text s

/-- The slice of `SamTask` that `prepare_task` constructs. -/
structure SamTask : Type where
  target_agent : String
  content : List ContentPart
  metadata : List (String × String)
deriving DecidableEq

/-- An update object as `handle_update` probes it: its type name, its
`__dict__` in insertion order (`none` models an object without `__dict__`,
on which the attribute probes find nothing), and the object seen as a plain
value for the `Raw Update` fallback branch. -/
structure SamUpdate : Type where
  typeName : String
  dict : Option (List (String × PyVal))
  selfVal : PyVal
deriving DecidableEq

/-- `getattr(update, name, None)`-style probe into the update's
`__dict__`. -/
def SamUpdate.attr (u : SamUpdate) (name : String) : Option PyVal :=
  List.lookup name (u.dict.getD [])

/-- `s.startswith(pre)`, computed on code points. -/
def pyStartsWith (s pre : String) : Bool :=
  pre.data.isPrefixOf s.data

/-- Python truthiness of the modelled values (opaque objects are truthy by
default). -/
def truthy : PyVal → Bool
  | .pstr s => !s.isEmpty
  | .pint n => n != 0
  | .pbool b => b
  | .pnone => false
  | .plist xs => !xs.isEmptyL
  | .pdict kvs => !kvs.isEmptyD
  | .pobj _ _ _ => true

/-- A host-reported error as `on_error` reads it: `type(error).__name__`
and `str(error)` (standard exceptions convert without raising). -/
structure PyException : Type where
  typeName : String
  message : String
deriving DecidableEq

/-! ## The adapter's hooks -/

namespace LoggingWebhookAdapter

/-- Embedding of `init` (lines 62–68).  Besides storing the context on
`self` the method only emits output, so it is total: nothing in it can
raise. -/
def init (context : GatewayContext) : List Ev :=
  _log_and_print ("\n" ++ SEPARATOR_THICK) .info ++
  _log_and_print "    LOGGING WEBHOOK ADAPTER INITIALIZED" .info ++
  _log_and_print ("    Gateway ID: " ++ context.gateway_id.getD "unknown") .info ++
  _log_and_print (SEPARATOR_THICK ++ "\n") .info

/-- The per-field truncation of the payload breakdown (lines 102–103):
values longer than 500 characters are cut to 500 and the fixed marker
`... [TRUNCATED]` is appended. -/
def truncateField (s : String) : String :=
  if s.length > 500 then s.take 500 ++ "... [TRUNCATED]" else s

/-- The `PAYLOAD BREAKDOWN` loop (lines 100–104).  A formatting exception
aborts the loop after the earlier items' lines were emitted. -/
def breakdownLines : List (String × PyVal) → List Ev × Bool
  | [] => ([], true)
  | (key, value) :: rest =>
    match _format_payload value 2 with
    | none => ([], false)
    | some fv =>
      let out := breakdownLines rest
      (_log_and_print ("      " ++ key ++ ": " ++ truncateField fv) .info ++ out.1, out.2)

/-- The banner and header lines of `prepare_task` (lines 78–83). -/
def pt_header : List Ev :=
  _log_and_print BANNER_START .info ++
  _log_and_print ("\n" ++ SEPARATOR_THICK) .info ++
  _log_and_print ARROW_IN .info ++
  _log_and_print "    INCOMING WEBHOOK REQUEST RECEIVED" .info ++
  _log_and_print ARROW_IN .info ++
  _log_and_print SEPARATOR_THIN .info

/-- The endpoint-context block (lines 86–89): `if endpoint_context:` — an
absent or empty dict is falsy and skips the block; a formatting exception
escapes after the block's first line was printed. -/
def pt_endpoint (endpoint_context : Option PyDict) : List Ev × Bool :=
  match endpoint_context with
  | none => ([], true)
  | some d =>
    if d.isEmptyD then ([], true)
    else
      match _format_payload (.pdict d) 2 with
      | none => (_log_and_print "\n    ENDPOINT CONTEXT:" .info, false)
      | some s =>
        (_log_and_print "\n    ENDPOINT CONTEXT:" .info ++ _log_and_print s .info ++
          _log_and_print SEPARATOR_THIN .info, true)

/-- The two lines printed before the raw payload itself (lines 92–93). -/
def pt_rawHdr : List Ev :=
  _log_and_print "\n    RAW EXTERNAL INPUT PAYLOAD:" .info ++
  _log_and_print SEPARATOR_THIN .info

/-- The `PAYLOAD BREAKDOWN` block (lines 98–104), entered only for dict
inputs. -/
def pt_breakdown (external_input : PyVal) : List Ev × Bool :=
  match external_input with
  | .pdict kvs =>
    let out := breakdownLines kvs.toItems
    (_log_and_print "\n    PAYLOAD BREAKDOWN:" .info ++ out.1, out.2)
  | _ => ([], true)

/-- The closing arrows of the request block (lines 106–107). -/
def pt_arrows : List Ev :=
  _log_and_print ("\n" ++ ARROW_IN) .info ++
  _log_and_print (SEPARATOR_THICK ++ "\n") .info

/-- Line 111: `external_input if isinstance(external_input, str) else
_format_payload(external_input)`. -/
def pt_taskText (external_input : PyVal) : Option String :=
  match external_input with
  | .pstr s => some s
  | _ => _format_payload external_input 2

/-- The `PREPARED SAM TASK` summary (lines 121–125). -/
def pt_summary (task : SamTask) : List Ev :=
  _log_and_print ("\n" ++ SEPARATOR_THIN) .info ++
  _log_and_print "    PREPARED SAM TASK:" .info ++
  _log_and_print ("      Target Agent: " ++ task.target_agent) .info ++
  _log_and_print ("      Content Parts: " ++ toString task.content.length) .info ++
  _log_and_print (SEPARATOR_THIN ++ "\n") .info

/-- Embedding of `prepare_task` (lines 70–127), assembled from the blocks
above in source order.  The first component is the emitted event trace; a
`none` second component models an exception escaping the hook (only
formatting of the inputs can raise here). -/
def prepare_task (external_input : PyVal) (endpoint_context : Option PyDict) :
    List Ev × Option SamTask :=
  match pt_endpoint endpoint_context with
  | (ectr, false) => (pt_header ++ ectr, none)
  | (ectr, true) =>
    match _format_payload external_input 2 with
    | none => (pt_header ++ ectr ++ pt_rawHdr, none)
    | some rawS =>
      let rawTr :=
        pt_rawHdr ++ _log_and_print rawS .info ++ _log_and_print SEPARATOR_THIN .info
      match pt_breakdown external_input with
      | (btr, false) => (pt_header ++ ectr ++ rawTr ++ btr, none)
      | (btr, true) =>
        match pt_taskText external_input with
        | none => (pt_header ++ ectr ++ rawTr ++ btr ++ pt_arrows, none)
        | some task_text =>
          let task : SamTask :=
            { target_agent := "OrchestratorAgent"
              content := [create_text_part task_text]
              metadata := [("source", "logging_webhook_adapter")] }
          (pt_header ++ ectr ++ rawTr ++ btr ++ pt_arrows ++ pt_summary task, some task)

/-- The two or three lines printed for one attribute in `UPDATE DETAILS`
(lines 161–169): values longer than 2000 characters are cut to 2000 and a
marker with the original length is printed on a further line. -/
def detailLines (attr_name formatted_value : String) : List Ev :=
  if formatted_value.length > 2000 then
    _log_and_print ("      " ++ attr_name ++ " (truncated):") .info ++
    _log_and_print ("        " ++ formatted_value.take 2000 ++ "...") .info ++
    _log_and_print ("        [Total length: " ++ toString formatted_value.length ++ " chars]") .info
  else
    _log_and_print ("      " ++ attr_name ++ ":") .info ++
    _log_and_print ("        " ++ formatted_value) .info

/-- The `vars(update)` loop (lines 159–169): private names are skipped, the
rest are formatted and printed.  A formatting exception aborts the loop
after the earlier attributes' lines were emitted. -/
def detailsLoop : List (String × PyVal) → List Ev × Bool
  | [] => ([], true)
  | (attr_name, attr_value) :: rest =>
    if pyStartsWith attr_name "_" then detailsLoop rest
    else
      match _format_payload attr_value 2 with
      | none => ([], false)
      | some fv =>
        let out := detailsLoop rest
        (detailLines attr_name fv ++ out.1, out.2)

/-- Lines 157–171: dump the update's `__dict__`, or the `Raw Update` line
when the object has none. -/
def updateDetails (u : SamUpdate) : List Ev × Bool :=
  match u.dict with
  | some attrs => detailsLoop attrs
  | none =>
    match _format_payload u.selfVal 2 with
    | none => ([], false)
    | some s => (_log_and_print ("      Raw Update: " ++ s) .info, true)

/-- Python iteration, as `for artifact in update.artifacts` performs it:
lists yield their elements, dicts their keys, strings their characters;
other values raise `TypeError`. -/
def iterElems : PyVal → Option (List PyVal)
  | .plist xs => some xs.toList
  | .pdict kvs => some (kvs.toItems.map fun kv => PyVal.pstr kv.1)
  | .pstr s => some (s.data.map fun c => PyVal.pstr (String.mk [c]))
  | _ => none

/-- The `TEXT CONTENT` section (lines 174–177).  The f-string applies `str`
to `update.text`, which can raise after the two header lines were
printed. -/
def textSection (u : SamUpdate) : List Ev × Bool :=
  match u.attr "text" with
  | none => ([], true)
  | some v =>
    if truthy v then
      let hdr :=
        _log_and_print ("\n" ++ SEPARATOR_THIN) .info ++
        _log_and_print "    TEXT CONTENT:" .info
      match pyStrV v with
      | none => (hdr, false)
      | some s => (hdr ++ _log_and_print ("      " ++ s) .info, true)
    else ([], true)

/-- The `STATUS` section (lines 179–181). -/
def statusSection (u : SamUpdate) : List Ev × Bool :=
  match u.attr "status" with
  | none => ([], true)
  | some v =>
    if truthy v then
      let hdr := _log_and_print ("\n" ++ SEPARATOR_THIN) .info
      match pyStrV v with
      | none => (hdr, false)
      | some s => (hdr ++ _log_and_print ("    STATUS: " ++ s) .info, true)
    else ([], true)

/-- The `ERROR` section (lines 183–185). -/
def errorSection (u : SamUpdate) : List Ev × Bool :=
  match u.attr "error" with
  | none => ([], true)
  | some v =>
    if truthy v then
      let hdr := _log_and_print ("\n" ++ SEPARATOR_THIN) .info
      match pyStrV v with
      | none => (hdr, false)
      | some s => (hdr ++ _log_and_print ("    ERROR: " ++ s) .info, true)
    else ([], true)

/-- The body of the artifacts loop (lines 190–191). -/
def artifactsLoop : List PyVal → List Ev × Bool
  | [] => ([], true)
  | a :: rest =>
    match _format_payload a 2 with
    | none => ([], false)
    | some s =>
      let out := artifactsLoop rest
      (_log_and_print ("      - " ++ s) .info ++ out.1, out.2)

/-- The `ARTIFACTS` section (lines 187–191). -/
def artifactsSection (u : SamUpdate) : List Ev × Bool :=
  match u.attr "artifacts" with
  | none => ([], true)
  | some v =>
    if truthy v then
      let hdr :=
        _log_and_print ("\n" ++ SEPARATOR_THIN) .info ++
        _log_and_print "    ARTIFACTS:" .info
      match iterElems v with
      | none => (hdr, false)
      | some arts =>
        let out := artifactsLoop arts
        (hdr ++ out.1, out.2)
    else ([], true)

/-- The header of `handle_update` (lines 137–155): banner, arrows, update
type, response context (attributes read with `getattr(·, ·, 'N/A')`), and
the `UPDATE DETAILS` heading. -/
def hu_pre (update : SamUpdate) (context : ResponseContext) : List Ev :=
  _log_and_print BANNER_START .info ++
  _log_and_print ("\n" ++ SEPARATOR_THICK) .info ++
  _log_and_print ARROW_OUT .info ++
  _log_and_print "    AGENT MESH RESPONSE/UPDATE RECEIVED" .info ++
  _log_and_print ARROW_OUT .info ++
  _log_and_print SEPARATOR_THIN .info ++
  _log_and_print ("\n    UPDATE TYPE: " ++ update.typeName) .info ++
  _log_and_print "\n    RESPONSE CONTEXT:" .info ++
  _log_and_print ("      Session ID: " ++ context.session_id.getD "N/A") .info ++
  _log_and_print ("      Task ID: " ++ context.task_id.getD "N/A") .info ++
  _log_and_print ("      User ID: " ++ context.user_id.getD "N/A") .info ++
  _log_and_print ("\n" ++ SEPARATOR_THIN) .info ++
  _log_and_print "    UPDATE DETAILS:" .info

/-- Embedding of `handle_update` (lines 129–194).  A `false` second
component models an exception escaping the hook after the first component's
events were emitted. -/
def handle_update (update : SamUpdate) (context : ResponseContext) : List Ev × Bool :=
  let pre := hu_pre update context
  match updateDetails update with
  | (tr1, false) => (pre ++ tr1, false)
  | (tr1, true) =>
    match textSection update with
    | (tr2, false) => (pre ++ tr1 ++ tr2, false)
    | (tr2, true) =>
      match statusSection update with
      | (tr3, false) => (pre ++ tr1 ++ tr2 ++ tr3, false)
      | (tr3, true) =>
        match errorSection update with
        | (tr4, false) => (pre ++ tr1 ++ tr2 ++ tr3 ++ tr4, false)
        | (tr4, true) =>
          match artifactsSection update with
          | (tr5, false) => (pre ++ tr1 ++ tr2 ++ tr3 ++ tr4 ++ tr5, false)
          | (tr5, true) =>
            (pre ++ tr1 ++ tr2 ++ tr3 ++ tr4 ++ tr5 ++
              _log_and_print ("\n" ++ ARROW_OUT) .info ++
              _log_and_print (SEPARATOR_THICK ++ "\n") .info, true)

/-- Embedding of `on_task_complete` (lines 196–202); total, nothing in it
can raise. -/
def on_task_complete (context : ResponseContext) : List Ev :=
  _log_and_print ("\n" ++ SEPARATOR_THICK) .info ++
  _log_and_print "    TASK COMPLETED" .info ++
  _log_and_print ("      Session ID: " ++ context.session_id.getD "N/A") .info ++
  _log_and_print ("      Task ID: " ++ context.task_id.getD "N/A") .info ++
  _log_and_print (SEPARATOR_THICK ++ "\n") .info

/-- Embedding of `on_error` (lines 204–215).  Every `_log_and_print` call
passes severity `"error"`; the final statement `log.error("Full
traceback:", exc_info=True)` reaches the logging channel only, not the
console.  The hook neither catches nor re-raises the error it is given: it
only observes it and returns. -/
def on_error (error : PyException) (context : Option ResponseContext) : List Ev :=
  _log_and_print ("\n" ++ SEPARATOR_THICK) .error ++
  _log_and_print "    ERROR IN GATEWAY PROCESSING" .error ++
  _log_and_print SEPARATOR_THIN .error ++
  _log_and_print ("    Error Type: " ++ error.typeName) .error ++
  _log_and_print ("    Error Message: " ++ error.message) .error ++
  (match context with
   | some c =>
     _log_and_print ("    Context Session ID: " ++ c.session_id.getD "N/A") .error ++
     _log_and_print ("    Context Task ID: " ++ c.task_id.getD "N/A") .error
   | none => []) ++
  _log_and_print (SEPARATOR_THICK ++ "\n") .error ++
  [Ev.lg LogLevel.error "Full traceback:"]

end LoggingWebhookAdapter

/-! ## Further definitions used by the verification -/

/-- Sink parity for a trace: the console (sink #2) and the logging channel
(sink #1) received identical text sequences, and every console write was
flushed. -/
def dualOk (tr : List Ev) : Prop :=
  consoleTexts tr = logTexts tr ∧ allFlushed tr = true

/-- Serializability of the optional endpoint-context dict. -/
def ecSerOk : Option PyDict → Bool
  | none => true
  | some d => serOkD d

/-- Does `n` occur as a contiguous run inside the second list? -/
def subAt (n : List Char) : List Char → Bool
  | [] => n.isEmpty
  | c :: t => n.isPrefixOf (c :: t) || subAt n t

/-- Does `needle` occur as a contiguous substring of `hay`? -/
def containsSub (needle hay : String) : Bool :=
  subAt needle.data hay.data

/-- The opening and closing brace characters. -/
def lbrace : Char := Char.ofNat 123

def rbrace : Char := Char.ofNat 125

/-! ### A small JSON parser: the structured parser for round-trip checks -/

/-- Skip JSON whitespace. -/
def skipWs (cs : List Char) : List Char :=
  cs.dropWhile fun c => c = ' ' ∨ c = '\n' ∨ c = '\t' ∨ c = '\r'

/-- The two-character escapes a JSON string literal may contain, as pairs
of the escape letter and the character it denotes. -/
def jsonEscapePairs : List (Char × Char) :=
  [('"', '"'), ('\\', '\\'), ('/', '/'), ('n', '\n'), ('r', '\r'), ('t', '\t'),
   ('b', Char.ofNat 8), ('f', Char.ofNat 12)]

/-- Decode the body of a JSON string literal up to its closing quote. -/
def parseJsonStringBody : List Char → Option (List Char × List Char)
  | [] => none
  | '"' :: t => some ([], t)
  | '\\' :: e :: t =>
    (List.lookup e jsonEscapePairs).bind fun c =>
      (parseJsonStringBody t).map fun (pr : List Char × List Char) => (c :: pr.1, pr.2)
  | c :: t =>
    (parseJsonStringBody t).map fun (pr : List Char × List Char) => (c :: pr.1, pr.2)

/-- The longest digit run at the head of the input, and the rest. -/
def parseDigits : List Char → List Char × List Char
  | c :: t =>
    if '0' ≤ c ∧ c ≤ '9' then
      let pr := parseDigits t
      (c :: pr.1, pr.2)
    else ([], c :: t)
  | [] => ([], [])

def digitsToNat (ds : List Char) : Nat :=
  ds.foldl (fun a c => 10 * a + (c.toNat - 48)) 0

/-- When the input begins with the literal word `kw`, the input past it. -/
def stripLit (kw : String) (cs : List Char) : Option (List Char) :=
  if kw.data.isPrefixOf cs then some (cs.drop kw.length) else none

mutual

/-- Parse one JSON value (fuel-bounded recursive descent). -/
def parseJsonVal : Nat → List Char → Option (PyVal × List Char)
  | 0, _ => none
  | fuel + 1, cs0 =>
    let cs := skipWs cs0
    match stripLit "null" cs, stripLit "true" cs, stripLit "false" cs with
    | some t, _, _ => some (.pnone, t)
    | _, some t, _ => some (.pbool true, t)
    | _, _, some t => some (.pbool false, t)
    | none, none, none =>
      match cs with
      | '"' :: t => (parseJsonStringBody t).map fun pr => (.pstr (String.mk pr.1), pr.2)
      | '[' :: t =>
        (match skipWs t with
         | ']' :: r => some (.plist .nil, r)
         | r => (parseJsonItems fuel r).map fun (pr : PyList × List Char) => (.plist pr.1, pr.2))
      | c :: t =>
        if c = lbrace then
          match skipWs t with
          | d :: r =>
            if d = rbrace then some (.pdict .nil, r)
            else
              (parseJsonMembers fuel (d :: r)).map fun (pr : PyDict × List Char) =>
                (.pdict pr.1, pr.2)
          | [] => none
        else if c = '-' then
          let pr := parseDigits t
          if pr.1.isEmpty then none else some (.pint (-(digitsToNat pr.1 : Int)), pr.2)
        else if '0' ≤ c ∧ c ≤ '9' then
          let pr := parseDigits (c :: t)
          some (.pint (digitsToNat pr.1 : Int), pr.2)
        else none
      | [] => none

/-- Parse the comma-separated items of a non-empty JSON array, up to `]`. -/
def parseJsonItems : Nat → List Char → Option (PyList × List Char)
  | 0, _ => none
  | fuel + 1, cs =>
    (parseJsonVal fuel cs).bind fun (pr : PyVal × List Char) =>
      match skipWs pr.2 with
      | ',' :: r => (parseJsonItems fuel r).map fun pr2 => (.cons pr.1 pr2.1, pr2.2)
      | ']' :: r => some (.cons pr.1 .nil, r)
      | _ => none

/-- Parse the members of a non-empty JSON object, up to the closing brace. -/
def parseJsonMembers : Nat → List Char → Option (PyDict × List Char)
  | 0, _ => none
  | fuel + 1, cs =>
    match skipWs cs with
    | '"' :: t =>
      (parseJsonStringBody t).bind fun kr =>
        match skipWs kr.2 with
        | ':' :: r =>
          (parseJsonVal fuel r).bind fun (vr : PyVal × List Char) =>
            match skipWs vr.2 with
            | ',' :: r2 =>
              (parseJsonMembers fuel r2).map fun (mr : PyDict × List Char) =>
                (.cons (String.mk kr.1) vr.1 mr.1, mr.2)
            | d :: r2 =>
              if d = rbrace then some (.cons (String.mk kr.1) vr.1 .nil, r2) else none
            | [] => none
        | _ => none
    | _ => none

end

/-- `json.loads`-style entry point: parse a complete JSON document. -/
def json_loads (s : String) : Option PyVal :=
  match parseJsonVal (s.length + 1) s.data with
  | some (v, rest) => if (skipWs rest).isEmpty then some v else none
  | none => none

/-- The update object of the end-to-end scenario: `text="done"`,
`status="completed"`, no `error` attribute, no `artifacts` attribute. -/
def doneUpdate : SamUpdate :=
  { typeName := "SamUpdate"
    dict := some [("text", PyVal.pstr "done"), ("status", PyVal.pstr "completed")]
    selfVal := PyVal.pnone }

/-- Everything `handle_update` emits for `doneUpdate` after the context
header: the two attribute dumps, the `TEXT CONTENT` and `STATUS` sections,
and the closing arrows — and no `ERROR:` or `ARTIFACTS:` section. -/
def doneTail : List Ev :=
  _log_and_print "      text:" .info ++
  _log_and_print "        done" .info ++
  _log_and_print "      status:" .info ++
  _log_and_print "        completed" .info ++
  _log_and_print ("\n" ++ SEPARATOR_THIN) .info ++
  _log_and_print "    TEXT CONTENT:" .info ++
  _log_and_print "      done" .info ++
  _log_and_print ("\n" ++ SEPARATOR_THIN) .info ++
  _log_and_print "    STATUS: completed" .info ++
  _log_and_print ("\n" ++ ARROW_OUT) .info ++
  _log_and_print (SEPARATOR_THICK ++ "\n") .info

/-! ## Basic facts about emission traces -/

theorem consoleTexts_append (a b : List Ev) :
    consoleTexts (a ++ b) = consoleTexts a ++ consoleTexts b := by
  simp [consoleTexts]

theorem logTexts_append (a b : List Ev) :
    logTexts (a ++ b) = logTexts a ++ logTexts b := by
  simp [logTexts, logRecords]

theorem allFlushed_append (a b : List Ev) :
    allFlushed (a ++ b) = (allFlushed a && allFlushed b) := by
  simp [allFlushed, List.all_append]

theorem dualOk_nil : dualOk [] := ⟨rfl, rfl⟩

theorem dualOk_lp (m : String) (l : LogLevel) : dualOk (_log_and_print m l) := ⟨rfl, rfl⟩

theorem dualOk_append {a b : List Ev} (ha : dualOk a) (hb : dualOk b) :
    dualOk (a ++ b) := by
  refine ⟨?_, ?_⟩
  · rw [consoleTexts_append, logTexts_append, ha.1, hb.1]
  · rw [allFlushed_append, ha.2, hb.2]
    rfl

namespace LoggingWebhookAdapter

theorem dualOk_breakdownLines (l : List (String × PyVal)) :
    dualOk (breakdownLines l).1 := by
  induction l with
  | nil => exact dualOk_nil
  | cons kv rest ih =>
    obtain ⟨k, v⟩ := kv
    simp only [breakdownLines]
    cases _format_payload v 2 with
    | none => exact dualOk_nil
    | some fv => exact dualOk_append (dualOk_lp _ _) ih

theorem dualOk_detailLines (a fv : String) : dualOk (detailLines a fv) := by
  unfold detailLines
  split
  · exact dualOk_append (dualOk_append (dualOk_lp _ _) (dualOk_lp _ _)) (dualOk_lp _ _)
  · exact dualOk_append (dualOk_lp _ _) (dualOk_lp _ _)

theorem dualOk_detailsLoop (l : List (String × PyVal)) :
    dualOk (detailsLoop l).1 := by
  induction l with
  | nil => exact dualOk_nil
  | cons kv rest ih =>
    obtain ⟨k, v⟩ := kv
    simp only [detailsLoop]
    split
    · exact ih
    · cases _format_payload v 2 with
      | none => exact dualOk_nil
      | some fv => exact dualOk_append (dualOk_detailLines _ _) ih

theorem dualOk_updateDetails (u : SamUpdate) : dualOk (updateDetails u).1 := by
  unfold updateDetails
  cases u.dict with
  | some attrs => exact dualOk_detailsLoop attrs
  | none =>
    cases _format_payload u.selfVal 2 with
    | none => exact dualOk_nil
    | some s => exact dualOk_lp _ _

theorem dualOk_textSection (u : SamUpdate) : dualOk (textSection u).1 := by
  unfold textSection
  cases u.attr "text" with
  | none => exact dualOk_nil
  | some v =>
    cases htr : truthy v with
    | false => simp [htr]; exact dualOk_nil
    | true =>
      cases hs : pyStrV v with
      | none => simp [htr, hs]; exact ⟨rfl, rfl⟩
      | some s => simp [htr, hs]; exact ⟨rfl, rfl⟩

theorem dualOk_statusSection (u : SamUpdate) : dualOk (statusSection u).1 := by
  unfold statusSection
  cases u.attr "status" with
  | none => exact dualOk_nil
  | some v =>
    cases htr : truthy v with
    | false => simp [htr]; exact dualOk_nil
    | true =>
      cases hs : pyStrV v with
      | none => simp [htr, hs]; exact ⟨rfl, rfl⟩
      | some s => simp [htr, hs]; exact ⟨rfl, rfl⟩

theorem dualOk_errorSection (u : SamUpdate) : dualOk (errorSection u).1 := by
  unfold errorSection
  cases u.attr "error" with
  | none => exact dualOk_nil
  | some v =>
    cases htr : truthy v with
    | false => simp [htr]; exact dualOk_nil
    | true =>
      cases hs : pyStrV v with
      | none => simp [htr, hs]; exact ⟨rfl, rfl⟩
      | some s => simp [htr, hs]; exact ⟨rfl, rfl⟩

theorem dualOk_artifactsLoop (l : List PyVal) : dualOk (artifactsLoop l).1 := by
  induction l with
  | nil => exact dualOk_nil
  | cons a rest ih =>
    simp only [artifactsLoop]
    cases _format_payload a 2 with
    | none => exact dualOk_nil
    | some s => exact dualOk_append (dualOk_lp _ _) ih

theorem dualOk_artifactsSection (u : SamUpdate) : dualOk (artifactsSection u).1 := by
  unfold artifactsSection
  cases u.attr "artifacts" with
  | none => exact dualOk_nil
  | some v =>
    cases htr : truthy v with
    | false => simp [htr]; exact dualOk_nil
    | true =>
      cases hi : iterElems v with
      | none => simp [htr, hi]; exact ⟨rfl, rfl⟩
      | some arts =>
        simp only [htr, hi]
        exact dualOk_append (dualOk_append (dualOk_lp _ _) (dualOk_lp _ _))
          (dualOk_artifactsLoop arts)

theorem dualOk_hu_pre (u : SamUpdate) (c : ResponseContext) : dualOk (hu_pre u c) :=
  ⟨rfl, rfl⟩

theorem dualOk_handle_update (u : SamUpdate) (c : ResponseContext) :
    dualOk (handle_update u c).1 := by
  unfold handle_update
  have hpre := dualOk_hu_pre u c
  rcases e1 : updateDetails u with ⟨t1, b1⟩
  have h1 : dualOk t1 := by have h := dualOk_updateDetails u; rw [e1] at h; exact h
  cases b1 with
  | false => exact dualOk_append hpre h1
  | true =>
    rcases e2 : textSection u with ⟨t2, b2⟩
    have h2 : dualOk t2 := by have h := dualOk_textSection u; rw [e2] at h; exact h
    cases b2 with
    | false => exact dualOk_append (dualOk_append hpre h1) h2
    | true =>
      rcases e3 : statusSection u with ⟨t3, b3⟩
      have h3 : dualOk t3 := by have h := dualOk_statusSection u; rw [e3] at h; exact h
      cases b3 with
      | false => exact dualOk_append (dualOk_append (dualOk_append hpre h1) h2) h3
      | true =>
        rcases e4 : errorSection u with ⟨t4, b4⟩
        have h4 : dualOk t4 := by have h := dualOk_errorSection u; rw [e4] at h; exact h
        cases b4 with
        | false =>
          exact dualOk_append (dualOk_append (dualOk_append (dualOk_append hpre h1) h2) h3) h4
        | true =>
          rcases e5 : artifactsSection u with ⟨t5, b5⟩
          have h5 : dualOk t5 := by
            have h := dualOk_artifactsSection u; rw [e5] at h; exact h
          cases b5 with
          | false =>
            exact dualOk_append (dualOk_append (dualOk_append (dualOk_append
              (dualOk_append hpre h1) h2) h3) h4) h5
          | true =>
            exact dualOk_append (dualOk_append (dualOk_append (dualOk_append (dualOk_append
              (dualOk_append (dualOk_append hpre h1) h2) h3) h4) h5)
              (dualOk_lp _ _)) (dualOk_lp _ _)

theorem dualOk_pt_header : dualOk pt_header := ⟨rfl, rfl⟩

theorem dualOk_pt_endpoint (ec : Option PyDict) : dualOk (pt_endpoint ec).1 := by
  unfold pt_endpoint
  cases ec with
  | none => exact dualOk_nil
  | some d =>
    cases he : d.isEmptyD with
    | true => simp [he]; exact dualOk_nil
    | false =>
      cases hf : _format_payload (.pdict d) 2 with
      | none => simp [he, hf]; exact ⟨rfl, rfl⟩
      | some s => simp [he, hf]; exact ⟨rfl, rfl⟩

theorem dualOk_pt_breakdown (ei : PyVal) : dualOk (pt_breakdown ei).1 := by
  unfold pt_breakdown
  cases ei <;> try exact dualOk_nil
  exact dualOk_append (dualOk_lp _ _) (dualOk_breakdownLines _)

theorem dualOk_prepare_task (ei : PyVal) (ec : Option PyDict) :
    dualOk (prepare_task ei ec).1 := by
  unfold prepare_task
  have h1 := dualOk_pt_endpoint ec
  have h2 := dualOk_pt_breakdown ei
  rcases e1 : pt_endpoint ec with ⟨ectr, b1⟩
  rw [e1] at h1
  cases b1
  · exact dualOk_append dualOk_pt_header h1
  · cases _format_payload ei 2 with
    | none =>
      exact dualOk_append (dualOk_append dualOk_pt_header h1)
        (dualOk_append (dualOk_lp _ _) (dualOk_lp _ _))
    | some rawS =>
      have hraw : dualOk (pt_rawHdr ++ _log_and_print rawS .info ++
          _log_and_print SEPARATOR_THIN .info) :=
        dualOk_append (dualOk_append (dualOk_append (dualOk_lp _ _) (dualOk_lp _ _))
          (dualOk_lp _ _)) (dualOk_lp _ _)
      rcases e2 : pt_breakdown ei with ⟨btr, b2⟩
      rw [e2] at h2
      cases b2
      · exact dualOk_append (dualOk_append (dualOk_append dualOk_pt_header h1) hraw) h2
      · cases pt_taskText ei with
        | none =>
          exact dualOk_append (dualOk_append (dualOk_append (dualOk_append
            dualOk_pt_header h1) hraw) h2)
            (dualOk_append (dualOk_lp _ _) (dualOk_lp _ _))
        | some task_text =>
          exact dualOk_append (dualOk_append (dualOk_append (dualOk_append (dualOk_append
            dualOk_pt_header h1) hraw) h2)
            (dualOk_append (dualOk_lp _ _) (dualOk_lp _ _)))
            (dualOk_append (dualOk_append (dualOk_append (dualOk_append (dualOk_lp _ _)
              (dualOk_lp _ _)) (dualOk_lp _ _)) (dualOk_lp _ _)) (dualOk_lp _ _))

theorem dualOk_init (g : GatewayContext) : dualOk (init g) := ⟨rfl, rfl⟩

theorem dualOk_on_task_complete (c : ResponseContext) :
    dualOk (on_task_complete c) := ⟨rfl, rfl⟩

theorem on_error_logTexts (e : PyException) (oc : Option ResponseContext) :
    logTexts (on_error e oc) = consoleTexts (on_error e oc) ++ ["Full traceback:"] := by
  cases oc <;> rfl

theorem on_error_allFlushed (e : PyException) (oc : Option ResponseContext) :
    allFlushed (on_error e oc) = true := by
  cases oc <;> rfl

/-- `truncateField` on a replicate string longer than the threshold. -/
theorem truncateField_replicate (n : Nat) (hn : 500 < n) :
    truncateField (String.mk (List.replicate n 'a'))
      = String.mk (List.replicate 500 'a') ++ "... [TRUNCATED]" := by
  have hl : (String.mk (List.replicate n 'a')).length = n := List.length_replicate n 'a'
  have ht : (String.mk (List.replicate n 'a')).take 500
      = String.mk (List.replicate 500 'a') := by
    apply String.ext
    rw [String.data_take]
    show (List.replicate n 'a').take 500 = List.replicate 500 'a'
    rw [List.take_replicate]
    have hm : min 500 n = 500 := by omega
    rw [hm]
  rw [truncateField, hl, ht]
  simp [hn]

end LoggingWebhookAdapter

/-! ## The claims -/

/-- **C1** (the code evaluated at the failing input): for an opaque object
whose text conversions raise, the `except Exception` handler's own
`str(data)` call raises again and that exception escapes `_format_payload`
— contrary to the specified invariant that rendering never raises and
always produces a fallback string. -/
theorem C1_format_payload_raises :
    _format_payload (PyVal.pobj none none "Unprintable") 2 = none := rfl

namespace LoggingWebhookAdapter

/-- **C2** (counterexample): at the 500-character per-field site
(`prepare_task`'s payload breakdown) the truncation output is the first 500
characters plus the fixed marker `... [TRUNCATED]`: it does not include the
original length — inputs of lengths 501 and 502 yield identical output, so
no marker can encode the original length. -/
theorem C2_counterexample :
    truncateField (String.mk (List.replicate 501 'a'))
        = String.mk (List.replicate 500 'a') ++ "... [TRUNCATED]"
      ∧ truncateField (String.mk (List.replicate 501 'a'))
        = truncateField (String.mk (List.replicate 502 'a')) := by
  constructor
  · exact truncateField_replicate 501 (by norm_num)
  · rw [truncateField_replicate 501 (by norm_num),
      truncateField_replicate 502 (by norm_num)]

/-- **C2** (amended): for strings beyond the threshold, the 500-character
per-field site emits exactly the first 500 characters followed by the fixed
marker `... [TRUNCATED]` (without the original length), while the
2000-character full-object dump site emits the first 2000 characters
followed by `...` and a further marker line that does include the original
length; the breakdown and details loops apply exactly these wrappers to
each formatted value. -/
theorem C2_amended (s t k attr : String) (hs : 500 < s.length) (ht : 2000 < t.length)
    (hattr : pyStartsWith attr "_" = false) :
    truncateField s = s.take 500 ++ "... [TRUNCATED]"
  ∧ detailLines attr t =
      _log_and_print ("      " ++ attr ++ " (truncated):") .info ++
      _log_and_print ("        " ++ t.take 2000 ++ "...") .info ++
      _log_and_print ("        [Total length: " ++ toString t.length ++ " chars]") .info
  ∧ breakdownLines [(k, PyVal.pstr s)]
      = (_log_and_print ("      " ++ k ++ ": " ++ truncateField s) .info, true)
  ∧ detailsLoop [(attr, PyVal.pstr t)] = (detailLines attr t, true) := by
  refine ⟨?_, ?_, ?_, ?_⟩
  · rw [truncateField]; simp [hs]
  · rw [detailLines]; simp [ht]
  · rfl
  · simp [detailsLoop, hattr, _format_payload, isDictOrList, pyStrV]

/-- Witness for `C2_amended` at concrete inputs of lengths 501 and 2001. -/
theorem C2_amended_witness :
    500 < (String.mk (List.replicate 501 'a')).length
  ∧ 2000 < (String.mk (List.replicate 2001 'b')).length
  ∧ pyStartsWith "result" "_" = false
  ∧ (truncateField (String.mk (List.replicate 501 'a'))
        = (String.mk (List.replicate 501 'a')).take 500 ++ "... [TRUNCATED]"
    ∧ detailLines "result" (String.mk (List.replicate 2001 'b')) =
        _log_and_print ("      " ++ "result" ++ " (truncated):") .info ++
        _log_and_print ("        " ++ (String.mk (List.replicate 2001 'b')).take 2000 ++ "...") .info ++
        _log_and_print ("        [Total length: " ++
          toString (String.mk (List.replicate 2001 'b')).length ++ " chars]") .info
    ∧ breakdownLines [("k", PyVal.pstr (String.mk (List.replicate 501 'a')))]
        = (_log_and_print ("      " ++ "k" ++ ": " ++
            truncateField (String.mk (List.replicate 501 'a'))) .info, true)
    ∧ detailsLoop [("result", PyVal.pstr (String.mk (List.replicate 2001 'b')))]
        = (detailLines "result" (String.mk (List.replicate 2001 'b')), true)) := by
  have h1 : 500 < (String.mk (List.replicate 501 'a')).length := by
    show 500 < (List.replicate 501 'a').length
    rw [List.length_replicate]
    norm_num
  have h2 : 2000 < (String.mk (List.replicate 2001 'b')).length := by
    show 2000 < (List.replicate 2001 'b').length
    rw [List.length_replicate]
    norm_num
  have h3 : pyStartsWith "result" "_" = false := by decide
  exact ⟨h1, h2, h3, C2_amended _ _ "k" "result" h1 h2 h3⟩

/-- **C4**: whenever `on_error` is invoked, every record it hands the
logging channel carries error severity, its output includes the error's
type name and message, and — when a context was supplied — the available
context identifiers; the hook itself is total (nothing in it raises) and it
neither catches nor replaces the error value, which stays with the host
unchanged. -/
theorem C4_on_error_observability (e : PyException) (c : Option ResponseContext) :
    (∀ r ∈ logRecords (on_error e c), r.1 = LogLevel.error)
  ∧ ("    Error Type: " ++ e.typeName) ∈ consoleTexts (on_error e c)
  ∧ ("    Error Type: " ++ e.typeName) ∈ logTexts (on_error e c)
  ∧ ("    Error Message: " ++ e.message) ∈ consoleTexts (on_error e c)
  ∧ ("    Error Message: " ++ e.message) ∈ logTexts (on_error e c)
  ∧ (∀ ctx, c = some ctx →
      ("    Context Session ID: " ++ ctx.session_id.getD "N/A") ∈ consoleTexts (on_error e c)
    ∧ ("    Context Task ID: " ++ ctx.task_id.getD "N/A") ∈ consoleTexts (on_error e c)) := by
  cases c with
  | none =>
    refine ⟨?_, ?_, ?_, ?_, ?_, ?_⟩ <;>
      simp [on_error, consoleTexts, logTexts, logRecords, _log_and_print]
  | some ctx =>
    refine ⟨?_, ?_, ?_, ?_, ?_, ?_⟩ <;>
      simp [on_error, consoleTexts, logTexts, logRecords, _log_and_print]

/-- Witness for `C4_on_error_observability` at a concrete error and
context. -/
theorem C4_on_error_observability_witness :
    (∀ r ∈ logRecords (on_error ⟨"ValueError", "boom"⟩
        (some ⟨some "sess-1", some "task-1", some "user-1"⟩)), r.1 = LogLevel.error)
  ∧ ("    Error Type: " ++ ("ValueError")) ∈ consoleTexts (on_error ⟨"ValueError", "boom"⟩
      (some ⟨some "sess-1", some "task-1", some "user-1"⟩))
  ∧ ("    Error Type: " ++ ("ValueError")) ∈ logTexts (on_error ⟨"ValueError", "boom"⟩
      (some ⟨some "sess-1", some "task-1", some "user-1"⟩))
  ∧ ("    Error Message: " ++ ("boom")) ∈ consoleTexts (on_error ⟨"ValueError", "boom"⟩
      (some ⟨some "sess-1", some "task-1", some "user-1"⟩))
  ∧ ("    Error Message: " ++ ("boom")) ∈ logTexts (on_error ⟨"ValueError", "boom"⟩
      (some ⟨some "sess-1", some "task-1", some "user-1"⟩))
  ∧ (∀ ctx, (some ⟨some "sess-1", some "task-1", some "user-1"⟩ : Option ResponseContext)
        = some ctx →
      ("    Context Session ID: " ++ ctx.session_id.getD "N/A")
        ∈ consoleTexts (on_error ⟨"ValueError", "boom"⟩
            (some ⟨some "sess-1", some "task-1", some "user-1"⟩))
    ∧ ("    Context Task ID: " ++ ctx.task_id.getD "N/A")
        ∈ consoleTexts (on_error ⟨"ValueError", "boom"⟩
            (some ⟨some "sess-1", some "task-1", some "user-1"⟩))) :=
  C4_on_error_observability ⟨"ValueError", "boom"⟩
    (some ⟨some "sess-1", some "task-1", some "user-1"⟩)

/-- **C5** (counterexample): in `on_error` the logging channel receives a
final record `"Full traceback:"` (line 215) that is never written to the
console, so the two sinks' text sequences differ in that hook. -/
theorem C5_counterexample :
    consoleTexts (on_error ⟨"ValueError", "boom"⟩ none)
      ≠ logTexts (on_error ⟨"ValueError", "boom"⟩ none) := by
  decide

/-- **C5** (amended): `_log_and_print` hands the identical text to both
sinks and flushes the console write; in `init`, `prepare_task`,
`handle_update` and `on_task_complete` the console and logger text
sequences coincide; in `on_error` they agree except that the logger
records one additional final `"Full traceback:"` entry (from
`log.error(..., exc_info=True)`, which has no `print` counterpart); every
console write in every hook is flushed. -/
theorem C5_amended (m : String) (lvl : LogLevel) (g : GatewayContext) (ei : PyVal)
    (ec : Option PyDict) (u : SamUpdate) (c : ResponseContext) (e : PyException)
    (oc : Option ResponseContext) :
    consoleTexts (_log_and_print m lvl) = [m]
  ∧ logTexts (_log_and_print m lvl) = [m]
  ∧ consoleTexts (init g) = logTexts (init g)
  ∧ consoleTexts (prepare_task ei ec).1 = logTexts (prepare_task ei ec).1
  ∧ consoleTexts (handle_update u c).1 = logTexts (handle_update u c).1
  ∧ consoleTexts (on_task_complete c) = logTexts (on_task_complete c)
  ∧ logTexts (on_error e oc) = consoleTexts (on_error e oc) ++ ["Full traceback:"]
  ∧ allFlushed (init g) = true
  ∧ allFlushed (prepare_task ei ec).1 = true
  ∧ allFlushed (handle_update u c).1 = true
  ∧ allFlushed (on_task_complete c) = true
  ∧ allFlushed (on_error e oc) = true :=
  ⟨rfl, rfl, (dualOk_init g).1, (dualOk_prepare_task ei ec).1, (dualOk_handle_update u c).1,
   (dualOk_on_task_complete c).1, on_error_logTexts e oc, (dualOk_init g).2,
   (dualOk_prepare_task ei ec).2, (dualOk_handle_update u c).2,
   (dualOk_on_task_complete c).2, on_error_allFlushed e oc⟩

end LoggingWebhookAdapter

/-- **C8**: the formatter is deterministic — equal input value and equal
indent yield equal output — and, as its embedding's effect-free type shows,
it emits no output events and carries no state from call to call (the
value's conversion methods are modelled as pure functions of the value). -/
theorem C8_format_payload_deterministic (v w : PyVal) (i j : Nat)
    (hv : v = w) (hi : i = j) : _format_payload v i = _format_payload w j := by
  rw [hv, hi]

/-- Witness for `C8_format_payload_deterministic` at a concrete value. -/
theorem C8_format_payload_deterministic_witness :
    PyVal.pstr "x" = PyVal.pstr "x" ∧ (2 : Nat) = 2 ∧
      _format_payload (PyVal.pstr "x") 2 = _format_payload (PyVal.pstr "x") 2 :=
  ⟨rfl, rfl, C8_format_payload_deterministic _ _ _ _ rfl rfl⟩

/-! ## Serialization success for values whose opaque leaves convert -/

mutual

theorem jsonDumpsV_isSome : ∀ (v : PyVal) (ind lvl : Nat), serOkV v = true →
    (jsonDumpsV v ind lvl).isSome = true
  | .pstr _, _, _, _ => rfl
  | .pint _, _, _, _ => rfl
  | .pbool _, _, _, _ => rfl
  | .pnone, _, _, _ => rfl
  | .pobj strRes reprRes tn, ind, lvl, h => by
    cases strRes with
    | none => exact absurd h (by simp [serOkV])
    | some s => rfl
  | .plist xs, ind, lvl, h => by
    have hx := jsonDumpsL_isSome xs ind (lvl + 1) h
    cases xs with
    | nil => rfl
    | cons v t =>
      simp only [jsonDumpsV]
      cases hJ : jsonDumpsL (.cons v t) ind (lvl + 1) with
      | none => rw [hJ] at hx; exact absurd hx (by simp)
      | some items => simp
  | .pdict kvs, ind, lvl, h => by
    have hx := jsonDumpsD_isSome kvs ind (lvl + 1) h
    cases kvs with
    | nil => rfl
    | cons k v t =>
      simp only [jsonDumpsV]
      cases hJ : jsonDumpsD (.cons k v t) ind (lvl + 1) with
      | none => rw [hJ] at hx; exact absurd hx (by simp)
      | some items => simp

theorem jsonDumpsL_isSome : ∀ (xs : PyList) (ind lvl : Nat), serOkL xs = true →
    (jsonDumpsL xs ind lvl).isSome = true
  | .nil, _, _, _ => rfl
  | .cons v t, ind, lvl, h => by
    have hvt : (serOkV v && serOkL t) = true := h
    simp only [Bool.and_eq_true] at hvt
    have hv := jsonDumpsV_isSome v ind lvl hvt.1
    have ht := jsonDumpsL_isSome t ind lvl hvt.2
    simp only [jsonDumpsL]
    cases hJ1 : jsonDumpsV v ind lvl with
    | none => rw [hJ1] at hv; exact absurd hv (by simp)
    | some s =>
      cases hJ2 : jsonDumpsL t ind lvl with
      | none => rw [hJ2] at ht; exact absurd ht (by simp)
      | some rest => simp

theorem jsonDumpsD_isSome : ∀ (kvs : PyDict) (ind lvl : Nat), serOkD kvs = true →
    (jsonDumpsD kvs ind lvl).isSome = true
  | .nil, _, _, _ => rfl
  | .cons k v t, ind, lvl, h => by
    have hvt : (serOkV v && serOkD t) = true := h
    simp only [Bool.and_eq_true] at hvt
    have hv := jsonDumpsV_isSome v ind lvl hvt.1
    have ht := jsonDumpsD_isSome t ind lvl hvt.2
    simp only [jsonDumpsD]
    cases hJ1 : jsonDumpsV v ind lvl with
    | none => rw [hJ1] at hv; exact absurd hv (by simp)
    | some s =>
      cases hJ2 : jsonDumpsD t ind lvl with
      | none => rw [hJ2] at ht; exact absurd ht (by simp)
      | some rest => simp

end

/-- `str` succeeds on every non-container value whose opaque conversion
exists. -/
theorem pyStrV_isSome_scalar (v : PyVal) (h : serOkV v = true)
    (hd : isDictOrList v = false) : (pyStrV v).isSome = true := by
  cases v <;> simp_all [pyStrV, pyReprV, serOkV, isDictOrList]

/-- When every opaque leaf of `v` converts, `_format_payload` succeeds. -/
theorem format_payload_isSome (v : PyVal) (ind : Nat) (h : serOkV v = true) :
    (_format_payload v ind).isSome = true := by
  unfold _format_payload
  cases v with
  | pstr s => rfl
  | pint n => rfl
  | pbool b => rfl
  | pnone => rfl
  | pobj sr rr tn =>
    cases sr with
    | none => exact absurd h (by simp [serOkV])
    | some s => rfl
  | plist xs =>
    have hs := jsonDumpsV_isSome (.plist xs) ind 0 h
    simp only [isDictOrList]
    cases hJ : jsonDumpsV (.plist xs) ind 0 with
    | none => rw [hJ] at hs; exact absurd hs (by simp)
    | some s => simp
  | pdict kvs =>
    have hs := jsonDumpsV_isSome (.pdict kvs) ind 0 h
    simp only [isDictOrList]
    cases hJ : jsonDumpsV (.pdict kvs) ind 0 with
    | none => rw [hJ] at hs; exact absurd hs (by simp)
    | some s => simp

/-- **C3**: for every value all of whose opaque leaves have a (non-raising)
default textual form: if the value is a mapping or an ordered sequence,
`_format_payload` returns its `json.dumps` structured serialization —
`indent` spaces per nesting level, non-serializable leaves coerced through
`str` — and that serialization succeeds; for every other value it returns
the value's default textual form `str(value)`, which likewise exists. -/
theorem C3_format_payload_structure (v : PyVal) (ind : Nat) (h : serOkV v = true) :
    (isDictOrList v = true →
        _format_payload v ind = jsonDumpsV v ind 0 ∧ (jsonDumpsV v ind 0).isSome = true)
  ∧ (isDictOrList v = false →
        _format_payload v ind = pyStrV v ∧ (pyStrV v).isSome = true) := by
  constructor
  · intro hd
    have hs := jsonDumpsV_isSome v ind 0 h
    refine ⟨?_, hs⟩
    unfold _format_payload
    simp only [hd, if_true]
    cases hJ : jsonDumpsV v ind 0 with
    | none => rw [hJ] at hs; exact absurd hs (by simp)
    | some s => simp
  · intro hd
    refine ⟨?_, pyStrV_isSome_scalar v h hd⟩
    unfold _format_payload
    simp only [hd]
    cases hp : pyStrV v with
    | none => simp
    | some s => simp

/-- Witness for `C3_format_payload_structure` at the mapping `{"a": 1}`. -/
theorem C3_format_payload_structure_witness :
    serOkV (PyVal.pdict (.cons "a" (.pint 1) .nil)) = true
  ∧ ((isDictOrList (PyVal.pdict (.cons "a" (.pint 1) .nil)) = true →
        _format_payload (PyVal.pdict (.cons "a" (.pint 1) .nil)) 2
          = jsonDumpsV (PyVal.pdict (.cons "a" (.pint 1) .nil)) 2 0
      ∧ (jsonDumpsV (PyVal.pdict (.cons "a" (.pint 1) .nil)) 2 0).isSome = true)
    ∧ (isDictOrList (PyVal.pdict (.cons "a" (.pint 1) .nil)) = false →
        _format_payload (PyVal.pdict (.cons "a" (.pint 1) .nil)) 2
          = pyStrV (PyVal.pdict (.cons "a" (.pint 1) .nil))
      ∧ (pyStrV (PyVal.pdict (.cons "a" (.pint 1) .nil))).isSome = true)) :=
  ⟨by decide, C3_format_payload_structure _ 2 (by decide)⟩

/-- **C6**: formatting the mapping `{"a": 1, "b": [1, 2, 3]}` with indent 2
yields structured text that contains both keys, and parsing that text back
with the JSON parser returns the original mapping (round-trip identity). -/
theorem C6_roundtrip :
    _format_payload (PyVal.pdict (.cons "a" (.pint 1) (.cons "b"
        (.plist (.cons (.pint 1) (.cons (.pint 2) (.cons (.pint 3) .nil)))) .nil))) 2
      = some "\x7b\n  \"a\": 1,\n  \"b\": [\n    1,\n    2,\n    3\n  ]\n\x7d"
  ∧ containsSub "\"a\"" "\x7b\n  \"a\": 1,\n  \"b\": [\n    1,\n    2,\n    3\n  ]\n\x7d" = true
  ∧ containsSub "\"b\"" "\x7b\n  \"a\": 1,\n  \"b\": [\n    1,\n    2,\n    3\n  ]\n\x7d" = true
  ∧ json_loads "\x7b\n  \"a\": 1,\n  \"b\": [\n    1,\n    2,\n    3\n  ]\n\x7d"
      = some (PyVal.pdict (.cons "a" (.pint 1) (.cons "b"
          (.plist (.cons (.pint 1) (.cons (.pint 2) (.cons (.pint 3) .nil)))) .nil))) := by
  exact ⟨by decide, by decide, by decide, by decide⟩

namespace LoggingWebhookAdapter

/-- Every value of a serializable dict is itself serializable. -/
theorem serOkD_items : ∀ (d : PyDict), serOkD d = true →
    ∀ kv ∈ d.toItems, serOkV kv.2 = true
  | .nil, _, kv, hkv => by simp [PyDict.toItems] at hkv
  | .cons k v t, h, kv, hkv => by
    have hvt : (serOkV v && serOkD t) = true := h
    simp only [Bool.and_eq_true] at hvt
    simp only [PyDict.toItems, List.mem_cons] at hkv
    rcases hkv with rfl | hkv
    · exact hvt.1
    · exact serOkD_items t hvt.2 kv hkv

/-- The breakdown loop completes when every field value is serializable. -/
theorem breakdownLines_ok (l : List (String × PyVal))
    (h : ∀ kv ∈ l, serOkV kv.2 = true) : (breakdownLines l).2 = true := by
  induction l with
  | nil => rfl
  | cons kv rest ih =>
    obtain ⟨k, v⟩ := kv
    have hv : serOkV v = true := h (k, v) (by simp)
    have hrest : ∀ kv ∈ rest, serOkV kv.2 = true := fun kv hkv => h kv (by simp [hkv])
    simp only [breakdownLines]
    obtain ⟨fv, hfv⟩ := Option.isSome_iff_exists.mp (format_payload_isSome v 2 hv)
    rw [hfv]
    exact ih hrest

/-- The endpoint-context block completes when the context dict is
serializable. -/
theorem pt_endpoint_ok (ec : Option PyDict) (h : ecSerOk ec = true) :
    (pt_endpoint ec).2 = true := by
  cases ec with
  | none => rfl
  | some d =>
    unfold pt_endpoint
    cases he : d.isEmptyD with
    | true => simp [he]
    | false =>
      have hd : serOkV (.pdict d) = true := h
      obtain ⟨s, hs⟩ := Option.isSome_iff_exists.mp (format_payload_isSome (.pdict d) 2 hd)
      simp [he, hs]

/-- The breakdown block completes on serializable inputs. -/
theorem pt_breakdown_ok (ei : PyVal) (h : serOkV ei = true) :
    (pt_breakdown ei).2 = true := by
  cases ei with
  | pdict kvs =>
    simp only [pt_breakdown]
    exact breakdownLines_ok kvs.toItems (serOkD_items kvs h)
  | pstr s => rfl
  | pint n => rfl
  | pbool b => rfl
  | pnone => rfl
  | plist xs => rfl
  | pobj a b c => rfl

/-- **C9** (counterexample): for an external input object whose text
conversions raise, `prepare_task` raises while logging the raw payload and
returns no `SamTask` at all. -/
theorem C9_counterexample :
    (prepare_task (PyVal.pobj none none "Unprintable") none).2 = none := by decide

/-- **C9** (amended): for every external input and optional endpoint
context whose payload formatting succeeds (no opaque leaf's text conversion
raises), `prepare_task` returns a `SamTask` whose `target_agent` is
`"OrchestratorAgent"`, whose metadata maps `"source"` to
`"logging_webhook_adapter"`, and whose content is exactly one text part —
the input itself when the input is a string, the formatted payload
otherwise. -/
theorem C9_amended (ei : PyVal) (ec : Option PyDict)
    (h1 : serOkV ei = true) (h2 : ecSerOk ec = true) :
    ∃ task txt,
      (prepare_task ei ec).2 = some task
    ∧ task.target_agent = "OrchestratorAgent"
    ∧ task.metadata = [("source", "logging_webhook_adapter")]
    ∧ pt_taskText ei = some txt
    ∧ task.content = [create_text_part txt]
    ∧ (∀ s, ei = PyVal.pstr s → txt = s)
    ∧ ((∀ s, ei ≠ PyVal.pstr s) → _format_payload ei 2 = some txt) := by
  obtain ⟨rawS, hraw⟩ := Option.isSome_iff_exists.mp (format_payload_isSome ei 2 h1)
  have htxt : ∃ txt, pt_taskText ei = some txt := by
    cases ei
    case pstr s => exact ⟨s, rfl⟩
    all_goals exact ⟨rawS, hraw⟩
  obtain ⟨txt, htxt⟩ := htxt
  refine ⟨⟨"OrchestratorAgent", [create_text_part txt],
    [("source", "logging_webhook_adapter")]⟩, txt, ?_, rfl, rfl, htxt, rfl, ?_, ?_⟩
  · unfold prepare_task
    rcases e1 : pt_endpoint ec with ⟨ectr, b1⟩
    have hb1 : b1 = true := by
      have hok := pt_endpoint_ok ec h2
      rw [e1] at hok
      exact hok
    subst hb1
    rw [hraw]
    rcases e2 : pt_breakdown ei with ⟨btr, b2⟩
    have hb2 : b2 = true := by
      have hok := pt_breakdown_ok ei h1
      rw [e2] at hok
      exact hok
    subst hb2
    rw [htxt]
  · intro s hs
    subst hs
    have h' : some s = some txt := htxt
    exact (Option.some.inj h').symm
  · intro hns
    cases ei
    case pstr s => exact absurd rfl (hns s)
    all_goals exact htxt

/-- Witness for `C9_amended` at the concrete input `{"a": 1}` with no
endpoint context. -/
theorem C9_amended_witness :
    serOkV (PyVal.pdict (.cons "a" (.pint 1) .nil)) = true
  ∧ ecSerOk none = true
  ∧ (∃ task txt,
      (prepare_task (PyVal.pdict (.cons "a" (.pint 1) .nil)) none).2 = some task
    ∧ task.target_agent = "OrchestratorAgent"
    ∧ task.metadata = [("source", "logging_webhook_adapter")]
    ∧ pt_taskText (PyVal.pdict (.cons "a" (.pint 1) .nil)) = some txt
    ∧ task.content = [create_text_part txt]
    ∧ (∀ s, PyVal.pdict (.cons "a" (.pint 1) .nil) = PyVal.pstr s → txt = s)
    ∧ ((∀ s, PyVal.pdict (.cons "a" (.pint 1) .nil) ≠ PyVal.pstr s) →
        _format_payload (PyVal.pdict (.cons "a" (.pint 1) .nil)) 2 = some txt)) :=
  ⟨by decide, by decide, C9_amended _ _ (by decide) (by decide)⟩

end LoggingWebhookAdapter

/-! ## String-prefix disambiguation helpers -/

theorem take_len_le {l : List Char} {n : Nat} (h : (l.take n).length = n) :
    n ≤ l.length := by
  simp only [List.length_take] at h
  omega

/-- Two string concatenations are distinct when their heads differ within
the first `n` characters. -/
theorem append_ne_of_take (p a x y : String) (n : Nat)
    (hpl : (p.data.take n).length = n) (hal : (a.data.take n).length = n)
    (h : p.data.take n ≠ a.data.take n) : p ++ x ≠ a ++ y := by
  intro he
  apply h
  have hd : p.data ++ x.data = a.data ++ y.data := by
    have h2 := congrArg String.data he
    simpa [String.data_append] using h2
  have hp : n ≤ p.data.length := take_len_le hpl
  have ha : n ≤ a.data.length := take_len_le hal
  calc p.data.take n = (p.data ++ x.data).take n := (List.take_append_of_le_length hp).symm
    _ = (a.data ++ y.data).take n := by rw [hd]
    _ = a.data.take n := List.take_append_of_le_length ha

/-- A string starting with `p` is distinct from a string that differs from
`p` within the first `n` characters. -/
theorem append_ne_concrete (p x a : String) (n : Nat)
    (hpl : (p.data.take n).length = n) (hal : (a.data.take n).length = n)
    (h : p.data.take n ≠ a.data.take n) : p ++ x ≠ a := by
  intro he
  exact append_ne_of_take p a x "" n hpl hal h (by rw [String.append_empty]; exact he)

namespace LoggingWebhookAdapter

/-- Whether `handle_update` completes or raises never depends on the
response context: the context is only rendered in the header. -/
theorem handle_update_snd_ctx (u : SamUpdate) (c c' : ResponseContext) :
    (handle_update u c).2 = (handle_update u c').2 := by
  unfold handle_update
  rcases updateDetails u with ⟨t1, b1⟩
  cases b1
  · rfl
  · rcases textSection u with ⟨t2, b2⟩
    cases b2
    · rfl
    · rcases statusSection u with ⟨t3, b3⟩
      cases b3
      · rfl
      · rcases errorSection u with ⟨t4, b4⟩
        cases b4
        · rfl
        · rcases artifactsSection u with ⟨t5, b5⟩
          cases b5 <;> rfl

/-- Every `handle_update` trace starts with the header block. -/
theorem handle_update_fst_shape (u : SamUpdate) (c : ResponseContext) :
    ∃ rest, (handle_update u c).1 = hu_pre u c ++ rest := by
  unfold handle_update
  rcases updateDetails u with ⟨t1, b1⟩
  cases b1
  · exact ⟨t1, rfl⟩
  · rcases textSection u with ⟨t2, b2⟩
    cases b2
    · exact ⟨t1 ++ t2, by simp [List.append_assoc]⟩
    · rcases statusSection u with ⟨t3, b3⟩
      cases b3
      · exact ⟨t1 ++ t2 ++ t3, by simp [List.append_assoc]⟩
      · rcases errorSection u with ⟨t4, b4⟩
        cases b4
        · exact ⟨t1 ++ t2 ++ t3 ++ t4, by simp [List.append_assoc]⟩
        · rcases artifactsSection u with ⟨t5, b5⟩
          cases b5
          · exact ⟨t1 ++ t2 ++ t3 ++ t4 ++ t5, by simp [List.append_assoc]⟩
          · exact ⟨t1 ++ t2 ++ t3 ++ t4 ++ t5 ++
              _log_and_print ("\n" ++ ARROW_OUT) .info ++
              _log_and_print (SEPARATOR_THICK ++ "\n") .info,
              by simp [List.append_assoc]⟩

/-- The console lines of the `handle_update` header. -/
theorem consoleTexts_hu_pre (u : SamUpdate) (c : ResponseContext) :
    consoleTexts (hu_pre u c) =
      [BANNER_START, "\n" ++ SEPARATOR_THICK, ARROW_OUT,
       "    AGENT MESH RESPONSE/UPDATE RECEIVED", ARROW_OUT, SEPARATOR_THIN,
       "\n    UPDATE TYPE: " ++ u.typeName, "\n    RESPONSE CONTEXT:",
       "      Session ID: " ++ c.session_id.getD "N/A",
       "      Task ID: " ++ c.task_id.getD "N/A",
       "      User ID: " ++ c.user_id.getD "N/A",
       "\n" ++ SEPARATOR_THIN, "    UPDATE DETAILS:"] := rfl

/-- The console lines of `on_task_complete`. -/
theorem consoleTexts_on_task_complete (c : ResponseContext) :
    consoleTexts (on_task_complete c) =
      ["\n" ++ SEPARATOR_THICK, "    TASK COMPLETED",
       "      Session ID: " ++ c.session_id.getD "N/A",
       "      Task ID: " ++ c.task_id.getD "N/A",
       SEPARATOR_THICK ++ "\n"] := rfl

/-- The console lines of `on_error` with a context. -/
theorem consoleTexts_on_error_some (e : PyException) (c : ResponseContext) :
    consoleTexts (on_error e (some c)) =
      ["\n" ++ SEPARATOR_THICK, "    ERROR IN GATEWAY PROCESSING", SEPARATOR_THIN,
       "    Error Type: " ++ e.typeName, "    Error Message: " ++ e.message,
       "    Context Session ID: " ++ c.session_id.getD "N/A",
       "    Context Task ID: " ++ c.task_id.getD "N/A",
       SEPARATOR_THICK ++ "\n"] := rfl

/-- The console lines of `init`. -/
theorem consoleTexts_init (g : GatewayContext) :
    consoleTexts (init g) =
      ["\n" ++ SEPARATOR_THICK, "    LOGGING WEBHOOK ADAPTER INITIALIZED",
       "    Gateway ID: " ++ g.gateway_id.getD "unknown",
       SEPARATOR_THICK ++ "\n"] := rfl

/-- **C10**: missing context attributes never make a hook raise.
`on_task_complete`, `on_error` and `init` are total by construction (their
embeddings return plain traces); whether `handle_update` raises is
independent of the context; and every missing attribute renders as the
placeholder `N/A` — `unknown` for the gateway id. -/
theorem C10_missing_attributes (u : SamUpdate) (c c' : ResponseContext)
    (g : GatewayContext) (e : PyException) :
    (handle_update u c).2 = (handle_update u c').2
  ∧ (c.session_id = none →
      "      Session ID: N/A" ∈ consoleTexts (handle_update u c).1
    ∧ "      Session ID: N/A" ∈ consoleTexts (on_task_complete c)
    ∧ "    Context Session ID: N/A" ∈ consoleTexts (on_error e (some c)))
  ∧ (c.task_id = none →
      "      Task ID: N/A" ∈ consoleTexts (handle_update u c).1
    ∧ "      Task ID: N/A" ∈ consoleTexts (on_task_complete c)
    ∧ "    Context Task ID: N/A" ∈ consoleTexts (on_error e (some c)))
  ∧ (c.user_id = none → "      User ID: N/A" ∈ consoleTexts (handle_update u c).1)
  ∧ (g.gateway_id = none → "    Gateway ID: unknown" ∈ consoleTexts (init g)) := by
  obtain ⟨rest, hr⟩ := handle_update_fst_shape u c
  refine ⟨handle_update_snd_ctx u c c', ?_, ?_, ?_, ?_⟩
  · intro hs
    have hline : ("      Session ID: " ++ c.session_id.getD "N/A")
        = "      Session ID: N/A" := by rw [hs]; decide
    have hline2 : ("    Context Session ID: " ++ c.session_id.getD "N/A")
        = "    Context Session ID: N/A" := by rw [hs]; decide
    refine ⟨?_, ?_, ?_⟩
    · rw [hr, consoleTexts_append]
      refine List.mem_append_left _ ?_
      rw [consoleTexts_hu_pre, ← hline]
      simp
    · rw [consoleTexts_on_task_complete, ← hline]
      simp
    · rw [consoleTexts_on_error_some, ← hline2]
      simp
  · intro hs
    have hline : ("      Task ID: " ++ c.task_id.getD "N/A")
        = "      Task ID: N/A" := by rw [hs]; decide
    have hline2 : ("    Context Task ID: " ++ c.task_id.getD "N/A")
        = "    Context Task ID: N/A" := by rw [hs]; decide
    refine ⟨?_, ?_, ?_⟩
    · rw [hr, consoleTexts_append]
      refine List.mem_append_left _ ?_
      rw [consoleTexts_hu_pre, ← hline]
      simp
    · rw [consoleTexts_on_task_complete, ← hline]
      simp
    · rw [consoleTexts_on_error_some, ← hline2]
      simp
  · intro hs
    have hline : ("      User ID: " ++ c.user_id.getD "N/A")
        = "      User ID: N/A" := by rw [hs]; decide
    rw [hr, consoleTexts_append]
    refine List.mem_append_left _ ?_
    rw [consoleTexts_hu_pre, ← hline]
    simp
  · intro hs
    have hline : ("    Gateway ID: " ++ g.gateway_id.getD "unknown")
        = "    Gateway ID: unknown" := by rw [hs]; decide
    rw [consoleTexts_init, ← hline]
    simp

end LoggingWebhookAdapter

namespace LoggingWebhookAdapter

/-- Witness for `C10_missing_attributes`: a context missing all three
attributes and an init context missing the gateway id. -/
theorem C10_missing_attributes_witness :
    (handle_update ⟨"U", some [], PyVal.pnone⟩ ⟨none, none, none⟩).2
      = (handle_update ⟨"U", some [], PyVal.pnone⟩ ⟨some "s", some "t", some "u"⟩).2
  ∧ ((⟨none, none, none⟩ : ResponseContext).session_id = none →
      "      Session ID: N/A"
        ∈ consoleTexts (handle_update ⟨"U", some [], PyVal.pnone⟩ ⟨none, none, none⟩).1
    ∧ "      Session ID: N/A"
        ∈ consoleTexts (on_task_complete ⟨none, none, none⟩)
    ∧ "    Context Session ID: N/A"
        ∈ consoleTexts (on_error ⟨"RuntimeError", "x"⟩ (some ⟨none, none, none⟩)))
  ∧ ((⟨none, none, none⟩ : ResponseContext).task_id = none →
      "      Task ID: N/A"
        ∈ consoleTexts (handle_update ⟨"U", some [], PyVal.pnone⟩ ⟨none, none, none⟩).1
    ∧ "      Task ID: N/A"
        ∈ consoleTexts (on_task_complete ⟨none, none, none⟩)
    ∧ "    Context Task ID: N/A"
        ∈ consoleTexts (on_error ⟨"RuntimeError", "x"⟩ (some ⟨none, none, none⟩)))
  ∧ ((⟨none, none, none⟩ : ResponseContext).user_id = none →
      "      User ID: N/A"
        ∈ consoleTexts (handle_update ⟨"U", some [], PyVal.pnone⟩ ⟨none, none, none⟩).1)
  ∧ ((⟨none⟩ : GatewayContext).gateway_id = none →
      "    Gateway ID: unknown" ∈ consoleTexts (init ⟨none⟩)) :=
  C10_missing_attributes ⟨"U", some [], PyVal.pnone⟩ ⟨none, none, none⟩
    ⟨some "s", some "t", some "u"⟩ ⟨none⟩ ⟨"RuntimeError", "x"⟩

/-- The full `handle_update` trace for the scenario update: the header
followed by `doneTail`. -/
theorem handle_update_doneUpdate_fst (c : ResponseContext) :
    (handle_update doneUpdate c).1 = hu_pre doneUpdate c ++ doneTail := by
  have h : (handle_update doneUpdate c).1
      = hu_pre doneUpdate c
        ++ [Ev.pr "      text:" true, Ev.lg .info "      text:",
            Ev.pr "        done" true, Ev.lg .info "        done",
            Ev.pr "      status:" true, Ev.lg .info "      status:",
            Ev.pr "        completed" true, Ev.lg .info "        completed"]
        ++ [Ev.pr ("\n" ++ SEPARATOR_THIN) true, Ev.lg .info ("\n" ++ SEPARATOR_THIN),
            Ev.pr "    TEXT CONTENT:" true, Ev.lg .info "    TEXT CONTENT:",
            Ev.pr "      done" true, Ev.lg .info "      done"]
        ++ [Ev.pr ("\n" ++ SEPARATOR_THIN) true, Ev.lg .info ("\n" ++ SEPARATOR_THIN),
            Ev.pr "    STATUS: completed" true, Ev.lg .info "    STATUS: completed"]
        ++ ([] : List Ev) ++ ([] : List Ev)
        ++ _log_and_print ("\n" ++ ARROW_OUT) .info
        ++ _log_and_print (SEPARATOR_THICK ++ "\n") .info := rfl
  rw [h]
  simp [doneTail, _log_and_print, List.append_assoc]

end LoggingWebhookAdapter

namespace LoggingWebhookAdapter

/-- **C7**: for the end-to-end scenario update — `text="done"`,
`status="completed"`, no `error`, no `artifacts` — and any response
context, `handle_update` completes without raising, emits console lines
containing `done` and lines containing `completed`, and emits no `ERROR:`
line and no `ARTIFACTS:` section header. -/
theorem C7_done_completed_scenario (c : ResponseContext) :
    (handle_update doneUpdate c).2 = true
  ∧ (∃ l ∈ consoleTexts (handle_update doneUpdate c).1, containsSub "done" l = true)
  ∧ (∃ l ∈ consoleTexts (handle_update doneUpdate c).1, containsSub "completed" l = true)
  ∧ (∀ s, ("    ERROR: " ++ s) ∉ consoleTexts (handle_update doneUpdate c).1)
  ∧ "    ARTIFACTS:" ∉ consoleTexts (handle_update doneUpdate c).1 := by
  have hfst := handle_update_doneUpdate_fst c
  have htail : consoleTexts doneTail =
      ["      text:", "        done", "      status:", "        completed",
       "\n" ++ SEPARATOR_THIN, "    TEXT CONTENT:", "      done",
       "\n" ++ SEPARATOR_THIN, "    STATUS: completed",
       "\n" ++ ARROW_OUT, SEPARATOR_THICK ++ "\n"] := rfl
  refine ⟨rfl, ?_, ?_, ?_, ?_⟩
  · refine ⟨"      done", ?_, by decide⟩
    rw [hfst, consoleTexts_append, htail]
    refine List.mem_append_right _ ?_
    simp
  · refine ⟨"    STATUS: completed", ?_, by decide⟩
    rw [hfst, consoleTexts_append, htail]
    refine List.mem_append_right _ ?_
    simp
  · intro s hmem
    rw [hfst, consoleTexts_append, consoleTexts_hu_pre, htail] at hmem
    rcases List.mem_append.mp hmem with hm | hm
    · simp only [List.mem_cons, List.not_mem_nil, or_false] at hm
      rcases hm with hm|hm|hm|hm|hm|hm|hm|hm|hm|hm|hm|hm|hm
      all_goals
        first
        | exact append_ne_concrete "    ERROR: " s _ 5
            (by decide) (by decide) (by decide) hm
        | exact append_ne_of_take "    ERROR: " _ s _ 5
            (by decide) (by decide) (by decide) hm
    · simp only [List.mem_cons, List.not_mem_nil, or_false] at hm
      rcases hm with hm|hm|hm|hm|hm|hm|hm|hm|hm|hm|hm
      all_goals
        exact append_ne_concrete "    ERROR: " s _ 5
          (by decide) (by decide) (by decide) hm
  · intro hmem
    rw [hfst, consoleTexts_append, consoleTexts_hu_pre, htail] at hmem
    rcases List.mem_append.mp hmem with hm | hm
    · simp only [List.mem_cons, List.not_mem_nil, or_false] at hm
      rcases hm with hm|hm|hm|hm|hm|hm|hm|hm|hm|hm|hm|hm|hm
      all_goals
        first
        | exact absurd hm (by decide)
        | exact append_ne_concrete _ _ "    ARTIFACTS:" 5
            (by decide) (by decide) (by decide) hm.symm
    · rw [show ("    ARTIFACTS:" ∈
          (["      text:", "        done", "      status:", "        completed",
            "\n" ++ SEPARATOR_THIN, "    TEXT CONTENT:", "      done",
            "\n" ++ SEPARATOR_THIN, "    STATUS: completed",
            "\n" ++ ARROW_OUT, SEPARATOR_THICK ++ "\n"] : List String))
          = False from by simp; decide] at hm
      exact hm

end LoggingWebhookAdapter

namespace LoggingWebhookAdapter

/-- Witness for `C7_done_completed_scenario` at a concrete response
context. -/
theorem C7_done_completed_scenario_witness :
    (handle_update doneUpdate ⟨some "s0", some "t0", some "u0"⟩).2 = true
  ∧ (∃ l ∈ consoleTexts (handle_update doneUpdate ⟨some "s0", some "t0", some "u0"⟩).1,
      containsSub "done" l = true)
  ∧ (∃ l ∈ consoleTexts (handle_update doneUpdate ⟨some "s0", some "t0", some "u0"⟩).1,
      containsSub "completed" l = true)
  ∧ (∀ s, ("    ERROR: " ++ s)
      ∉ consoleTexts (handle_update doneUpdate ⟨some "s0", some "t0", some "u0"⟩).1)
  ∧ "    ARTIFACTS:"
      ∉ consoleTexts (handle_update doneUpdate ⟨some "s0", some "t0", some "u0"⟩).1 :=
  C7_done_completed_scenario ⟨some "s0", some "t0", some "u0"⟩

end LoggingWebhookAdapter
